import Mathlib

/-!
# Verification of the nykAorticApp main-window customization layer

Shallow embedding of `src/Applications/nykAorticApp/qnykAorticAppMainWindow.cxx`
together with its headers `qnykAorticAppMainWindow.h` and
`qnykAorticAppMainWindow_p.h`.  The layer subclasses a host-platform main
window (`qSlicerMainWindow`) and overrides `init`, `setupUi` and one
action-triggered slot.  We model each operation in two complementary ways:

* an *effect trace*: the exact list of observable side effects the operation
  performs, in source order;
* a *state transformer* on a `WindowState` record, with the host base class's
  own `setupUi` taken as an arbitrary function parameter (it lives outside
  this repository).

Resource lookup (`QPixmap(":/path")`, `QIcon(":/path")`) is modelled by an
environment `ResourceEnv : String → Bool` saying which embedded resource
paths resolve; a path that does not resolve yields a null pixmap, exactly as
in Qt.
-/

/-- A Qt pixmap: null (resource missing / default constructed) or loaded
from a resource path.  `QPixmap(":/p")` yields `loaded ":/p"` when the
resource resolves and `null` otherwise. -/
inductive QPixmap where
  | null
  | loaded (path : String)
deriving DecidableEq, Repr, BEq

/-- `QPixmap::isNull()`. -/
def QPixmap.isNull : QPixmap → Bool
  | .null => true
  | .loaded _ => false

/-- Which embedded resource paths resolve to an image. -/
abbrev ResourceEnv := String → Bool

/-- Constructing `QPixmap(path)` under a resource environment. -/
def loadPixmap (env : ResourceEnv) (path : String) : QPixmap :=
  if env path then .loaded path else .null

/-- The window-icon resource path used in `setupUi`
(`mainWindow->setWindowIcon(QIcon(":/Icons/Medium/DesktopIcon.png"))`). -/
def desktopIconPath : String := ":/Icons/Medium/DesktopIcon.png"

/-- The full-logo resource path used in `setupUi`
(`QPixmap logoPixmap(":/LogoFull.png")`). -/
def logoFullPath : String := ":/LogoFull.png"

/-- The about-dialog logo resource path used in the triggered slot
(`about.setLogo(QPixmap(":/Logo.png"))`). -/
def aboutLogoPath : String := ":/Logo.png"

/-- A `QAction`, recording the properties the layer sets on it. -/
structure QAction where
  objectName : String
  text : String
deriving DecidableEq, Repr, BEq

/-- The action built at the top of `qnykAorticAppMainWindowPrivate::setupUi`:
object name `"HelpAboutnykAorticAppAction"`, text `"About " +
app->applicationName()`. -/
def helpAboutAction (appName : String) : QAction :=
  { objectName := "HelpAboutnykAorticAppAction"
    text := "About " ++ appName }

/-- The style sheet string set on the logo label in `setupUi`. -/
def logoLabelStyleSheet : String :=
  "QLabel#LogoLabel \x7b background-color: transparent; padding: 2px; margin-right: 10px; \x7d"

/-- A `QLabel`, recording the properties `setupUi` sets on the logo label. -/
structure QLabel where
  objectName : String
  pixmap : QPixmap
  alignLeft : Bool
  alignVCenter : Bool
  marginLeft : Nat
  marginTop : Nat
  marginRight : Nat
  marginBottom : Nat
  styleSheet : String
  visible : Bool
deriving DecidableEq, Repr, BEq

/-- The logo label configured in `setupUi` (lines 82-90 of the .cxx file):
object name `"LogoLabel"`, pixmap from `":/LogoFull.png"`, alignment
`Qt::AlignLeft | Qt::AlignVCenter`, contents margins `(5, 0, 0, 0)`, the
style sheet above, and visible. -/
def mkLogoLabel (env : ResourceEnv) : QLabel :=
  { objectName := "LogoLabel"
    pixmap := loadPixmap env logoFullPath
    alignLeft := true
    alignVCenter := true
    marginLeft := 5
    marginTop := 0
    marginRight := 0
    marginBottom := 0
    styleSheet := logoLabelStyleSheet
    visible := true }

/-- An item of the title-bar `QHBoxLayout`: the logo label widget, or the
stretch added by `titleLayout->addStretch(1)`. -/
inductive LayoutItem where
  | label (l : QLabel)
  | stretch (factor : Nat)
deriving DecidableEq, Repr, BEq

/-- The `QHBoxLayout` installed on the custom title bar. -/
structure QHBoxLayout where
  marginLeft : Nat
  marginTop : Nat
  marginRight : Nat
  marginBottom : Nat
  spacing : Nat
  items : List LayoutItem
deriving DecidableEq, Repr, BEq

/-- The custom title-bar container widget. -/
structure TitleBarWidget where
  minimumHeight : Nat
  layout : QHBoxLayout
deriving DecidableEq, Repr, BEq

/-- The custom title bar built in `setupUi` (lines 93-103): a widget with
minimum height 25 and a horizontal layout with zero margins, spacing 10,
holding the logo label followed by a stretch of factor 1. -/
def mkCustomTitleBar (env : ResourceEnv) : TitleBarWidget :=
  { minimumHeight := 25
    layout :=
      { marginLeft := 0
        marginTop := 0
        marginRight := 0
        marginBottom := 0
        spacing := 10
        items := [.label (mkLogoLabel env), .stretch 1] } }

/-- The parts of the main window's state the layer can observe or modify.
Visibility flags and the File-menu action list are included so that frame
conditions (what `setupUi` leaves untouched) are meaningful; their values
after the base class's `setupUi` are arbitrary. -/
structure WindowState where
  windowIcon : Option String
  windowTitle : String
  menubarVisible : Bool
  fileMenuVisible : Bool
  editMenuVisible : Bool
  viewMenuVisible : Bool
  layoutMenuVisible : Bool
  helpMenuVisible : Bool
  fileMenuActions : List QAction
  helpMenuActions : List QAction
  panelDockTitleBar : Option TitleBarWidget
  statusBarVisible : Bool
deriving DecidableEq, Repr, BEq

/-- State effect of `qnykAorticAppMainWindowPrivate::setupUi`: it first runs
the base class's `setupUi` (an arbitrary function, since the host platform
is outside this repository), then appends the About action to the Help menu,
sets the window icon, and installs the custom title bar on the panel dock
widget.  The commented-out `setVisible(false)` lines (107-113) are dead code
and change nothing. -/
def setupUiState (baseSetupUi : WindowState → WindowState) (env : ResourceEnv)
    (appName : String) (s : WindowState) : WindowState :=
  let s1 := baseSetupUi s
  { s1 with
    helpMenuActions := s1.helpMenuActions ++ [helpAboutAction appName]
    windowIcon := some desktopIconPath
    panelDockTitleBar := some (mkCustomTitleBar env) }

/-- One observable side effect performed by the layer.  `raiseError` is never
emitted by any operation of this layer; it is included so that the absence
of error effects is a non-vacuous statement. -/
inductive Step where
  | createAction (objectName text : String)
  | callBaseSetupUi
  | addHelpMenuAction (objectName : String)
  | setWindowIcon (path : String)
  | createLabel (objectName : String)
  | loadRes (path : String) (resolved : Bool)
  | debugLog (msg : String)
  | setLabelPixmap (p : QPixmap)
  | setLabelAlignment
  | setLabelContentsMargins (l t r b : Nat)
  | setLabelStyleSheet (s : String)
  | setLabelVisible (v : Bool)
  | createTitleBarWidget
  | setTitleBarMinimumHeight (h : Nat)
  | createLayout
  | setLayoutContentsMargins (l t r b : Nat)
  | setLayoutSpacing (n : Nat)
  | addLayoutWidget (objectName : String)
  | addLayoutStretch (factor : Nat)
  | setPanelDockTitleBar
  | setAppAttr (a : String)
  | callBaseInit
  | createDialog (parentIsWindow : Bool)
  | setDialogLogo (p : QPixmap)
  | execDialog
  | raiseError (msg : String)
  | createPimpl
  | callBaseCtor
deriving DecidableEq, Repr, BEq

/-- The constructor of each `Step`, forgetting its arguments: used to state
that a trace performs the same sequence of operations regardless of which
resources resolve. -/
inductive StepKind where
  | createActionK | callBaseSetupUiK | addHelpMenuActionK | setWindowIconK
  | createLabelK | loadResK | debugLogK | setLabelPixmapK | setLabelAlignmentK
  | setLabelContentsMarginsK | setLabelStyleSheetK | setLabelVisibleK
  | createTitleBarWidgetK | setTitleBarMinimumHeightK | createLayoutK
  | setLayoutContentsMarginsK | setLayoutSpacingK | addLayoutWidgetK
  | addLayoutStretchK | setPanelDockTitleBarK | setAppAttrK | callBaseInitK
  | createDialogK | setDialogLogoK | execDialogK | raiseErrorK
  | createPimplK | callBaseCtorK
deriving DecidableEq, Repr, BEq

/-- The kind of a step. -/
def Step.kind : Step → StepKind
  | .createAction _ _ => .createActionK
  | .callBaseSetupUi => .callBaseSetupUiK
  | .addHelpMenuAction _ => .addHelpMenuActionK
  | .setWindowIcon _ => .setWindowIconK
  | .createLabel _ => .createLabelK
  | .loadRes _ _ => .loadResK
  | .debugLog _ => .debugLogK
  | .setLabelPixmap _ => .setLabelPixmapK
  | .setLabelAlignment => .setLabelAlignmentK
  | .setLabelContentsMargins _ _ _ _ => .setLabelContentsMarginsK
  | .setLabelStyleSheet _ => .setLabelStyleSheetK
  | .setLabelVisible _ => .setLabelVisibleK
  | .createTitleBarWidget => .createTitleBarWidgetK
  | .setTitleBarMinimumHeight _ => .setTitleBarMinimumHeightK
  | .createLayout => .createLayoutK
  | .setLayoutContentsMargins _ _ _ _ => .setLayoutContentsMarginsK
  | .setLayoutSpacing _ => .setLayoutSpacingK
  | .addLayoutWidget _ => .addLayoutWidgetK
  | .addLayoutStretch _ => .addLayoutStretchK
  | .setPanelDockTitleBar => .setPanelDockTitleBarK
  | .setAppAttr _ => .setAppAttrK
  | .callBaseInit => .callBaseInitK
  | .createDialog _ => .createDialogK
  | .setDialogLogo _ => .setDialogLogoK
  | .execDialog => .execDialogK
  | .raiseError _ => .raiseErrorK
  | .createPimpl => .createPimplK
  | .callBaseCtor => .callBaseCtorK

/-- Whether a step is an error effect. -/
def Step.isErr : Step → Bool
  | .raiseError _ => true
  | _ => false

/-- The message printed by the `qDebug()` call in `setupUi`.  The real
message also appends `logoPixmap.size()`, whose value for a loaded image
depends on image data outside this embedding; only the statically determined
part is modelled. -/
def debugMsg (p : QPixmap) : String :=
  "Logo pixmap is " ++ (if p.isNull then "NULL" else "valid") ++ " with size"

/-- Effect trace of `qnykAorticAppMainWindowPrivate::init` (lines 47-54):
when built against Qt >= 5.7 it first sets the application attribute
`Qt::AA_UseHighDpiPixmaps`, then in all builds it forwards to the base
class's `init`.  (`Q_Q` only fetches the public pointer and has no effect.) -/
def initTrace (qt57 : Bool) : List Step :=
  (if qt57 then [Step.setAppAttr "AA_UseHighDpiPixmaps"] else []) ++ [Step.callBaseInit]

/-- Effect trace of `qnykAorticAppMainWindowPrivate::setupUi`
(lines 57-114), in source order: create and configure the About action,
call the base class's `setupUi`, append the action to the Help menu, set
the window icon, build and configure the logo label (including the
`qDebug()` line), build the custom title bar and its layout, and install it
on the panel dock widget. -/
def setupUiTrace (env : ResourceEnv) (appName : String) : List Step :=
  let logoPixmap := loadPixmap env logoFullPath
  [ .createAction "HelpAboutnykAorticAppAction" ("About " ++ appName),
    .callBaseSetupUi,
    .addHelpMenuAction "HelpAboutnykAorticAppAction",
    .setWindowIcon desktopIconPath,
    .createLabel "LogoLabel",
    .loadRes logoFullPath (env logoFullPath),
    .debugLog (debugMsg logoPixmap),
    .setLabelPixmap logoPixmap,
    .setLabelAlignment,
    .setLabelContentsMargins 5 0 0 0,
    .setLabelStyleSheet logoLabelStyleSheet,
    .setLabelVisible true,
    .createTitleBarWidget,
    .setTitleBarMinimumHeight 25,
    .createLayout,
    .setLayoutContentsMargins 0 0 0 0,
    .setLayoutSpacing 10,
    .addLayoutWidget "LogoLabel",
    .addLayoutStretch 1,
    .setPanelDockTitleBar ]

/-- Effect trace of the slot
`qnykAorticAppMainWindow::on_HelpAboutnykAorticAppAction_triggered`
(lines 141-146): construct `qSlicerAboutDialog about(this)` (parented to the
window), load `QPixmap(":/Logo.png")` and set it as the dialog logo, and run
the dialog modally with `exec()`.  Nothing else. -/
def onHelpAboutTriggeredTrace (env : ResourceEnv) : List Step :=
  [ .createDialog true,
    .loadRes aboutLogoPath (env aboutLogoPath),
    .setDialogLogo (loadPixmap env aboutLogoPath),
    .execDialog ]

/-- Effect trace of the public constructor
`qnykAorticAppMainWindow(QWidget*)` (lines 120-125): allocate the private
object, run the base-class constructor, then call `d->init()`. -/
def publicCtorTrace (qt57 : Bool) : List Step :=
  Step.createPimpl :: Step.callBaseCtor :: initTrace qt57

/-- Effect trace of the protected constructor
`qnykAorticAppMainWindow(qnykAorticAppMainWindowPrivate*, QWidget*)`
(lines 128-133): it only runs the base-class constructor; per the source
comment, `init()` is left to the derived class. -/
def protectedCtorTrace : List Step := [Step.callBaseCtor]

/-- The resource path referenced by a step, if any. -/
def Step.resourcePath : Step → Option String
  | .setWindowIcon p => some p
  | .loadRes p _ => some p
  | _ => none

/-- All embedded resource paths referenced anywhere in the customization
layer: those referenced by `setupUi` and by the About slot (the only
operations that touch resources). -/
def layerResourcePaths (env : ResourceEnv) (appName : String) : List String :=
  (setupUiTrace env appName ++ onHelpAboutTriggeredTrace env).filterMap Step.resourcePath

/-- Whether a resource path names the application icon. -/
def isIconResource (p : String) : Bool := p = desktopIconPath

/-- Whether a resource path names a logo image. -/
def isLogoResource (p : String) : Bool := p = logoFullPath || p = aboutLogoPath

/-- Data members declared by `qnykAorticAppMainWindowPrivate` in
`qnykAorticAppMainWindow_p.h` (lines 28-40): the class body declares a
constructor, a destructor, `init` and `setupUi`, and no data members at
all.  (`HelpMenu` and `PanelDockWidget` used in the .cxx file are inherited
members of the base private class of the host platform.) -/
def pimplDeclaredDataMembers : List String := []

/-- The extension points of the inherited main-window base class that this
layer overrides or implements: `init` and `setupUi` (declared `virtual` in
`qnykAorticAppMainWindow_p.h`) and the auto-connected slot
`on_HelpAboutnykAorticAppAction_triggered` (declared in
`qnykAorticAppMainWindow.h`). -/
inductive ExtPoint where
  | initHook
  | setupUiHook
  | aboutHandler
deriving DecidableEq, Repr, BEq

/-- The list of overridden extension points, read off the two headers. -/
def overriddenExtPoints : List ExtPoint := [.initHook, .setupUiHook, .aboutHandler]

/-- Modelled from the words of claim C5: an effect belongs to the categories
the claim allows, namely window icon, branding logo (the label, its pixmap,
its diagnostics, and the title-bar composition that carries it), the custom
title-bar widget, the About menu action and its dialog behavior, or a
forward to the base class.  `setAppAttr` (the high-DPI application
attribute), `raiseError` and the constructor-only effects fall outside every
category. -/
def claimC5AllowedEffect : Step → Bool
  | .createAction _ _ => true
  | .addHelpMenuAction _ => true
  | .setWindowIcon _ => true
  | .createLabel _ => true
  | .loadRes _ _ => true
  | .debugLog _ => true
  | .setLabelPixmap _ => true
  | .setLabelAlignment => true
  | .setLabelContentsMargins _ _ _ _ => true
  | .setLabelStyleSheet _ => true
  | .setLabelVisible _ => true
  | .createTitleBarWidget => true
  | .setTitleBarMinimumHeight _ => true
  | .createLayout => true
  | .setLayoutContentsMargins _ _ _ _ => true
  | .setLayoutSpacing _ => true
  | .addLayoutWidget _ => true
  | .addLayoutStretch _ => true
  | .setPanelDockTitleBar => true
  | .callBaseSetupUi => true
  | .callBaseInit => true
  | .createDialog _ => true
  | .setDialogLogo _ => true
  | .execDialog => true
  | .setAppAttr _ => false
  | .raiseError _ => false
  | .createPimpl => false
  | .callBaseCtor => false

/-- C1: after `setupUi` completes, the Help menu holds exactly one new
action, appended after the base class's own `setupUi` ran; the action is
named "HelpAboutnykAorticAppAction" with text "About " followed by the
application name, and in the effect trace the action is created before the
base call and appended after it. -/
theorem C1_helpAboutAction_appended
    (baseSetupUi : WindowState → WindowState) (env : ResourceEnv)
    (appName : String) (s : WindowState) :
    (setupUiState baseSetupUi env appName s).helpMenuActions
        = (baseSetupUi s).helpMenuActions ++ [helpAboutAction appName]
    ∧ helpAboutAction appName
        = { objectName := "HelpAboutnykAorticAppAction", text := "About " ++ appName }
    ∧ ∃ rest, setupUiTrace env appName
        = Step.createAction "HelpAboutnykAorticAppAction" ("About " ++ appName)
          :: Step.callBaseSetupUi
          :: Step.addHelpMenuAction "HelpAboutnykAorticAppAction" :: rest :=
  ⟨rfl, rfl, _, rfl⟩

/-- C2: every trigger of the About action runs exactly these effects, in
order: construct the about dialog parented to the window, load the pixmap
from ":/Logo.png" and set it as the dialog logo, and run the dialog modally
with `exec()`; the trace has length 4 and ends with the modal `exec`, so no
other observable effect occurs. -/
theorem C2_about_slot_behavior (env : ResourceEnv) :
    onHelpAboutTriggeredTrace env
      = [Step.createDialog true,
         Step.loadRes aboutLogoPath (env aboutLogoPath),
         Step.setDialogLogo (loadPixmap env aboutLogoPath),
         Step.execDialog]
    ∧ (onHelpAboutTriggeredTrace env).length = 4
    ∧ (onHelpAboutTriggeredTrace env).getLast? = some Step.execDialog :=
  ⟨rfl, rfl, rfl⟩

/-- C3: a missing image resource is not a failure: for any two resource
environments, `setupUi` and the About handler perform the same sequence of
operation kinds; neither trace contains an error effect; and under the
environment where no resource resolves, the null pixmap is still installed
on the logo label and passed to the dialog logo. -/
theorem C3_null_resource_not_failure (env env2 : ResourceEnv) (appName : String) :
    (setupUiTrace env appName).map Step.kind = (setupUiTrace env2 appName).map Step.kind
    ∧ (onHelpAboutTriggeredTrace env).map Step.kind
        = (onHelpAboutTriggeredTrace env2).map Step.kind
    ∧ (setupUiTrace env appName).any Step.isErr = false
    ∧ (onHelpAboutTriggeredTrace env).any Step.isErr = false
    ∧ (mkLogoLabel (fun _ => false)).pixmap = QPixmap.null
    ∧ (mkLogoLabel (fun _ => false)).visible = true
    ∧ (setupUiTrace (fun _ => false) appName).contains
        (Step.setLabelPixmap QPixmap.null) = true
    ∧ (onHelpAboutTriggeredTrace (fun _ => false)).contains
        (Step.setDialogLogo QPixmap.null) = true :=
  ⟨rfl, rfl, rfl, rfl, rfl, rfl, rfl, rfl⟩

/-- C4 counterexample: the customization layer references three embedded
resource paths, not two: the desktop icon, the full logo used in the title
bar, and the about-dialog logo.  The claim "the set of resource paths has
exactly two elements" is therefore false. -/
theorem C4_counterexample :
    layerResourcePaths (fun _ => true) "nykAortic"
        = [desktopIconPath, logoFullPath, aboutLogoPath]
    ∧ ((layerResourcePaths (fun _ => true) "nykAortic").length == 2) = false
    ∧ (layerResourcePaths (fun _ => true) "nykAortic").length = 3 :=
  ⟨rfl, rfl, rfl⟩

/-- C4 amended: for every resource environment and application name, the
layer references exactly three embedded image resources by name — one
application icon (":/Icons/Medium/DesktopIcon.png") and two logos
(":/LogoFull.png" in `setupUi` and ":/Logo.png" in the About handler). -/
theorem C4_three_resources (env : ResourceEnv) (appName : String) :
    layerResourcePaths env appName = [desktopIconPath, logoFullPath, aboutLogoPath]
    ∧ (layerResourcePaths env appName).length = 3
    ∧ isIconResource desktopIconPath = true
    ∧ isLogoResource logoFullPath = true
    ∧ isLogoResource aboutLogoPath = true
    ∧ isLogoResource desktopIconPath = false
    ∧ isIconResource logoFullPath = false
    ∧ isIconResource aboutLogoPath = false := by
  refine ⟨rfl, rfl, ?_, ?_, ?_, ?_, ?_, ?_⟩ <;> decide

/-- C5 counterexample: the claim that each override's extra behavior is
limited to window icon, logo, title bar and About action fails on `init`:
on Qt >= 5.7 its trace contains setting the application attribute
`AA_UseHighDpiPixmaps`, which belongs to none of those categories. -/
theorem C5_counterexample :
    (initTrace true).contains (Step.setAppAttr "AA_UseHighDpiPixmaps") = true
    ∧ claimC5AllowedEffect (Step.setAppAttr "AA_UseHighDpiPixmaps") = false
    ∧ (initTrace true).all claimC5AllowedEffect = false :=
  ⟨rfl, rfl, rfl⟩

/-- C5 amended: the layer overrides exactly three extension points (`init`,
`setupUi` and the About-triggered slot); every effect of `setupUi` and of
the slot falls in the claim's categories; every effect of `init` does too
except the high-DPI application attribute set on Qt >= 5.7; `init` and
`setupUi` forward to the base class, while the slot is a new handler that
calls no base implementation. -/
theorem C5_amended_three_overrides (qt57 : Bool) (env : ResourceEnv) (appName : String) :
    overriddenExtPoints.length = 3
    ∧ (initTrace qt57).all
        (fun st => claimC5AllowedEffect st
          || st == Step.setAppAttr "AA_UseHighDpiPixmaps") = true
    ∧ (setupUiTrace env appName).all claimC5AllowedEffect = true
    ∧ (onHelpAboutTriggeredTrace env).all claimC5AllowedEffect = true
    ∧ (initTrace qt57).contains Step.callBaseInit = true
    ∧ (setupUiTrace env appName).contains Step.callBaseSetupUi = true
    ∧ (onHelpAboutTriggeredTrace env).contains Step.callBaseInit = false
    ∧ (onHelpAboutTriggeredTrace env).contains Step.callBaseSetupUi = false := by
  refine ⟨rfl, ?_, rfl, rfl, ?_, rfl, rfl, rfl⟩
  · cases qt57 <;> rfl
  · cases qt57 <;> rfl

/-- C6 counterexample: the private-implementation class declares no data
members at all, so it does not hold references to the label, layout,
title-bar container or menu action: the claim that the pimpl object holds
those references is false. -/
theorem C6_counterexample :
    pimplDeclaredDataMembers = []
    ∧ pimplDeclaredDataMembers.isEmpty = true
    ∧ pimplDeclaredDataMembers.contains "LogoLabel" = false :=
  ⟨rfl, rfl, rfl⟩

/-- C6 amended: the layer introduces no new data members on the pimpl; the
widgets created in `setupUi` are instead owned by the window's widget tree:
after `setupUi` the About action sits in the Help menu's action list, the
custom title bar (holding the logo label inside its layout) is installed on
the panel dock widget, and both persist in the window state. -/
theorem C6_amended_widget_tree_ownership
    (baseSetupUi : WindowState → WindowState) (env : ResourceEnv)
    (appName : String) (s : WindowState) :
    pimplDeclaredDataMembers = []
    ∧ helpAboutAction appName ∈ (setupUiState baseSetupUi env appName s).helpMenuActions
    ∧ (setupUiState baseSetupUi env appName s).panelDockTitleBar
        = some (mkCustomTitleBar env)
    ∧ LayoutItem.label (mkLogoLabel env) ∈ (mkCustomTitleBar env).layout.items := by
  refine ⟨rfl, ?_, rfl, ?_⟩
  · simp [setupUiState]
  · simp [mkCustomTitleBar]

/-- C8: `init` sets the application-wide high-DPI-pixmaps attribute before
forwarding to the base class's `init` when built against Qt >= 5.7, and on
older Qt it only forwards to the base class. -/
theorem C8_init_highdpi :
    initTrace true = [Step.setAppAttr "AA_UseHighDpiPixmaps", Step.callBaseInit]
    ∧ initTrace false = [Step.callBaseInit] :=
  ⟨rfl, rfl⟩

/-- C9: only the public constructor calls `init` on the private object: its
trace is pimpl allocation, base construction, then the `init` effects; the
protected constructor's trace is the base construction alone, with no
`init`-originated effect. -/
theorem C9_ctor_init (qt57 : Bool) :
    publicCtorTrace qt57 = [Step.createPimpl, Step.callBaseCtor] ++ initTrace qt57
    ∧ (publicCtorTrace qt57).contains Step.callBaseInit = true
    ∧ protectedCtorTrace = [Step.callBaseCtor]
    ∧ protectedCtorTrace.contains Step.callBaseInit = false
    ∧ protectedCtorTrace.all
        (fun st => st.kind != StepKind.setAppAttrK
          && st.kind != StepKind.callBaseInitK) = true := by
  cases qt57 <;> exact ⟨rfl, rfl, rfl, rfl, rfl⟩

/-- C10: `setupUi` leaves the menu bar's and every inherited menu's
visibility, the window title, the File menu's actions and the status bar
exactly as the base class's `setupUi` established them; the only parts of
the window it modifies are the window icon, the Help menu's action list and
the panel dock widget's title-bar widget. -/
theorem C10_setupUi_frame
    (baseSetupUi : WindowState → WindowState) (env : ResourceEnv)
    (appName : String) (s : WindowState) :
    (setupUiState baseSetupUi env appName s).menubarVisible
        = (baseSetupUi s).menubarVisible
    ∧ (setupUiState baseSetupUi env appName s).fileMenuVisible
        = (baseSetupUi s).fileMenuVisible
    ∧ (setupUiState baseSetupUi env appName s).editMenuVisible
        = (baseSetupUi s).editMenuVisible
    ∧ (setupUiState baseSetupUi env appName s).viewMenuVisible
        = (baseSetupUi s).viewMenuVisible
    ∧ (setupUiState baseSetupUi env appName s).layoutMenuVisible
        = (baseSetupUi s).layoutMenuVisible
    ∧ (setupUiState baseSetupUi env appName s).helpMenuVisible
        = (baseSetupUi s).helpMenuVisible
    ∧ (setupUiState baseSetupUi env appName s).windowTitle
        = (baseSetupUi s).windowTitle
    ∧ (setupUiState baseSetupUi env appName s).fileMenuActions
        = (baseSetupUi s).fileMenuActions
    ∧ (setupUiState baseSetupUi env appName s).statusBarVisible
        = (baseSetupUi s).statusBarVisible
    ∧ (setupUiState baseSetupUi env appName s).windowIcon = some desktopIconPath
    ∧ (setupUiState baseSetupUi env appName s).helpMenuActions
        = (baseSetupUi s).helpMenuActions ++ [helpAboutAction appName]
    ∧ (setupUiState baseSetupUi env appName s).panelDockTitleBar
        = some (mkCustomTitleBar env) :=
  ⟨rfl, rfl, rfl, rfl, rfl, rfl, rfl, rfl, rfl, rfl, rfl, rfl⟩
